import Mathlib

/-!
Shallow embedding of the fractary/forge artifact-resolution engine
(Python SDK module `fractary_forge.registry`): the filesystem-tier
resolvers (local and global), the remote HTTP resolver, and the
orchestrating registries (AgentRegistry / ToolRegistry), together with
proofs of the resolution engine's specified properties.
-/

namespace Forge

/-- Embeds `fractary_forge.types.ResolutionResult` (pydantic model with
fields `name`, `version`, `path`, `source`, `metadata`).  The metadata
mapping is modelled as an association list of strings. -/
structure ResolutionResult where
  name : String
  version : String
  path : String
  source : String
  metadata : List (String × String)
deriving DecidableEq, Repr

/-- The exceptions the registry code can raise, from
`fractary_forge.errors`: `ResolutionError` (message, `name` attribute,
`details["path"]`), `NetworkError` (message, optional `status_code`,
optional `details["url"]`), Python's builtin `KeyError` (raised by
`data["name"]` on a dict missing the key), and
`AgentNotFoundError` / `ToolNotFoundError` (name, `details["version"]`,
`details["searched"]`). -/
inductive PyErr where
  | resolutionError (message : String) (name : String) (path : String)
  | networkError (message : String) (statusCode : Option Nat) (url : Option String)
  | keyError (key : String)
  | agentNotFound (name : String) (version : Option String) (searched : List String)
  | toolNotFound (name : String) (version : Option String) (searched : List String)
deriving DecidableEq, Repr

/-- Python truthiness of an optional string: `None` and `""` are falsy. -/
def truthy : Option String → Bool
  | none => false
  | some s => !(s == "")

/-- Python `a or b` on optional strings (used by `version or parsed_version`). -/
def pyOrOpt (a b : Option String) : Option String :=
  if truthy a then a else b

/-- Python `a or b` where the fallback is a plain string (used by
`registry_url or "https://registry.fractary.com"`). -/
def pyOrStr (a : Option String) (b : String) : String :=
  match a, truthy a with
  | some s, true => s
  | _, _ => b

/-- Split a character list at the first occurrence of `sep`, returning the
parts before and after it; `none` when `sep` does not occur.  This is the
behaviour of Python's `sep in s` test combined with `s.split(sep, 1)`. -/
def splitFirstAt (sep : Char) : List Char → Option (List Char × List Char)
  | [] => none
  | c :: rest =>
    if c = sep then some ([], rest)
    else
      match splitFirstAt sep rest with
      | none => none
      | some p => some (c :: p.1, p.2)

/-- Embeds `BaseResolver._parse_name_version`: if `"@" in name`, split on
the first `@` into `(name, version)`; otherwise `(name, None)`. -/
def parse_name_version (name : String) : String × Option String :=
  match splitFirstAt '@' name.data with
  | some p => (String.mk p.1, some (String.mk p.2))
  | none => (name, none)

/-- Python's `<` on strings: strict lexicographic comparison of the code
points (`list.sort` on `str` uses exactly this order). -/
def pyStrLt : List Char → List Char → Bool
  | [], [] => false
  | [], _ :: _ => true
  | _ :: _, [] => false
  | a :: as, b :: bs =>
    if a.val.toNat < b.val.toNat then true
    else if b.val.toNat < a.val.toNat then false
    else pyStrLt as bs

/-- Python's `<=` on strings, derived from the strict order. -/
def pyLe (a b : String) : Bool := !(pyStrLt b.data a.data)

/-- Insert a string into a descending-sorted list, keeping it descending.
Together with `sortDesc` this models Python's `versions.sort(reverse=True)`
in `LocalResolver._find_version` (version directory names are pairwise
distinct, so every correct descending sort produces the same list). -/
def insertDesc (v : String) : List String → List String
  | [] => [v]
  | w :: ws => if pyLe w v then v :: w :: ws else w :: insertDesc v ws

/-- Sort a list of strings in descending lexical (code point) order:
the model of `versions.sort(reverse=True)`. -/
def sortDesc : List String → List String
  | [] => []
  | v :: vs => insertDesc v (sortDesc vs)

/-- Contents of a `definition.yaml` document as seen by
`yaml.safe_load`: either it parses (possibly to `None`, for an empty
file) or loading raises (malformed YAML, unreadable file). -/
inductive DefDoc where
  | parses (definition : Option (List (String × String)))
  | malformed (message : String)
deriving DecidableEq, Repr

/-- A version subdirectory `{root}/{kind}/{name}/{version}` of a registry:
its directory name and, when present, its `definition.yaml` document. -/
structure VersionDir where
  name : String
  doc : Option DefDoc
deriving DecidableEq, Repr

/-- An artifact name directory `{root}/{kind}/{name}`: its directory name
and its version subdirectories (`iterdir` entries that are directories). -/
structure NameDir where
  name : String
  versions : List VersionDir
deriving DecidableEq, Repr

/-- A registry root directory: its filesystem path and the name
directories under its two kind buckets `agents` and `tools`. -/
structure RegistryRoot where
  path : String
  agents : List NameDir
  tools : List NameDir
deriving DecidableEq, Repr

/-- Directory lookup by name (a path exists iff a directory of that name
is present; directory names are unique on a real filesystem). -/
def lookupName (ds : List NameDir) (n : String) : Option NameDir :=
  ds.find? (fun d => d.name == n)

/-- Version-subdirectory lookup by name. -/
def lookupVersion (vs : List VersionDir) (v : String) : Option VersionDir :=
  vs.find? (fun d => d.name == v)

/-- Embeds `LocalResolver._create_result`: load the definition document
at `{version_dir}/definition.yaml`; on success build a `ResolutionResult`
with `source = "local"` (hardcoded, as in the source), `path` the version
directory, and `metadata` the parsed document (`definition or {}`); on a
load failure raise `ResolutionError` carrying the artifact name and the
document path in `details["path"]`. -/
def create_result (name version : String) (version_dir : String) (doc : DefDoc) :
    Except PyErr ResolutionResult :=
  match doc with
  | DefDoc.parses d =>
    Except.ok { name := name, version := version, path := version_dir,
                source := "local", metadata := d.getD [] }
  | DefDoc.malformed msg =>
    Except.error (PyErr.resolutionError ("Failed to load definition: " ++ msg) name
      (version_dir ++ "/definition.yaml"))

/-- Embeds `LocalResolver._find_version`.  With a (truthy) requested
version: return the result for `{base_dir}/{version}` when its
`definition.yaml` exists, else `none`.  With no requested version:
collect the version subdirectory names, sort them descending
(`versions.sort(reverse=True)`, lexical — the source's noted semver gap),
and return the result for the first if its document exists. -/
def find_version (base_dir : String) (vdirs : List VersionDir) (name : String)
    (version : Option String) : Except PyErr (Option ResolutionResult) :=
  match version, truthy version with
  | some v, true =>
    match lookupVersion vdirs v with
    | some vd =>
      match vd.doc with
      | some doc => (create_result name v (base_dir ++ "/" ++ v) doc).map some
      | none => Except.ok none
    | none => Except.ok none
  | _, _ =>
    let versions := vdirs.map (fun d => d.name)
    if versions.isEmpty then Except.ok none
    else
      match sortDesc versions with
      | [] => Except.ok none
      | latest :: _ =>
        match lookupVersion vdirs latest with
        | some vd =>
          match vd.doc with
          | some doc =>
            (create_result name latest (base_dir ++ "/" ++ latest) doc).map some
          | none => Except.ok none
        | none => Except.ok none

/-- The kind-bucket loop of `LocalResolver.resolve`: for each
`(kind, name-directories)` bucket in order, if `{root}/{kind}/{name}`
exists, try `_find_version`; a found result returns immediately, a raised
`ResolutionError` propagates, absence falls through to the next bucket. -/
def resolve_buckets (rootPath : String) (buckets : List (String × List NameDir))
    (pname : String) (version : Option String) : Except PyErr (Option ResolutionResult) :=
  match buckets with
  | [] => Except.ok none
  | (kind, names) :: rest =>
    match lookupName names pname with
    | none => resolve_buckets rootPath rest pname version
    | some dir =>
      match find_version (rootPath ++ "/" ++ kind ++ "/" ++ pname) dir.versions
          pname version with
      | Except.error e => Except.error e
      | Except.ok (some res) => Except.ok (some res)
      | Except.ok none => resolve_buckets rootPath rest pname version

/-- Embeds `LocalResolver.resolve`: `none` when the registry path is
unset or does not exist (modelled as `reg = none`); otherwise parse the
identifier, let an explicit version argument override an embedded one
(`version or parsed_version`), and search the `agents` then the `tools`
bucket. -/
def local_resolve (reg : Option RegistryRoot) (name : String) (version : Option String) :
    Except PyErr (Option ResolutionResult) :=
  match reg with
  | none => Except.ok none
  | some root =>
    let p := parse_name_version name
    resolve_buckets root.path [("agents", root.agents), ("tools", root.tools)] p.1
      (pyOrOpt version p.2)

/-- The version loop of `LocalResolver.list_all` for one name directory:
emit one result per version subdirectory whose `definition.yaml` exists;
a document that fails to load raises out of the loop. -/
def list_versions (name_dir_path : String) (name : String) :
    List VersionDir → Except PyErr (List ResolutionResult)
  | [] => Except.ok []
  | vd :: rest =>
    match vd.doc with
    | none => list_versions name_dir_path name rest
    | some doc =>
      match create_result name vd.name (name_dir_path ++ "/" ++ vd.name) doc with
      | Except.error e => Except.error e
      | Except.ok r =>
        match list_versions name_dir_path name rest with
        | Except.error e => Except.error e
        | Except.ok rs => Except.ok (r :: rs)

/-- The name loop of `LocalResolver.list_all` for one kind bucket. -/
def list_names (type_dir_path : String) :
    List NameDir → Except PyErr (List ResolutionResult)
  | [] => Except.ok []
  | nd :: rest =>
    match list_versions (type_dir_path ++ "/" ++ nd.name) nd.name nd.versions with
    | Except.error e => Except.error e
    | Except.ok rs =>
      match list_names type_dir_path rest with
      | Except.error e => Except.error e
      | Except.ok rest' => Except.ok (rs ++ rest')

/-- Embeds `LocalResolver.list_all`: walk the `agents` then the `tools`
bucket; an absent registry yields the empty list. -/
def local_list_all (reg : Option RegistryRoot) : Except PyErr (List ResolutionResult) :=
  match reg with
  | none => Except.ok []
  | some root =>
    match list_names (root.path ++ "/agents") root.agents with
    | Except.error e => Except.error e
    | Except.ok a =>
      match list_names (root.path ++ "/tools") root.tools with
      | Except.error e => Except.error e
      | Except.ok t => Except.ok (a ++ t)

/-- Embeds `GlobalResolver.resolve`: run the inherited
`LocalResolver.resolve` algorithm on the global root, then re-tag a
successful result's `source` to `"global"`. -/
def global_resolve (reg : Option RegistryRoot) (name : String) (version : Option String) :
    Except PyErr (Option ResolutionResult) :=
  match local_resolve reg name version with
  | Except.error e => Except.error e
  | Except.ok none => Except.ok none
  | Except.ok (some r) => Except.ok (some { r with source := "global" })

/-- `GlobalResolver` does not override `list_all`: it inherits
`LocalResolver.list_all` unchanged, with no source re-tagging. -/
def global_list_all (reg : Option RegistryRoot) : Except PyErr (List ResolutionResult) :=
  local_list_all reg

/-- A JSON response body of the remote registry's resolve endpoint,
restricted to the keys the decoder reads: `data["name"]`,
`data["version"]`, `data.get("path", "")`, `data.get("metadata", {})`. -/
structure RemoteBody where
  name : Option String
  version : Option String
  path : Option String
  metadata : Option (List (String × String))
deriving DecidableEq, Repr

/-- Outcome of one HTTP GET: a transport-level failure
(`httpx.HTTPError`: DNS, connection refused, timeout) or a response with
a status code and a JSON body. -/
inductive HttpOutcome where
  | transportError (message : String)
  | response (status : Nat) (body : RemoteBody)
deriving DecidableEq, Repr

/-- The HTTP client as a function from (endpoint URL, query parameters)
to an outcome; the network's behaviour is a parameter of the model. -/
abbrev HttpClient := String → List (String × String) → HttpOutcome

/-- Default remote registry URL (`registry_url or "https://registry.fractary.com"`
in `RemoteResolver.__init__`). -/
def defaultRegistryUrl : String := "https://registry.fractary.com"

/-- Query parameters added for the version: `if version: params["version"] = version`. -/
def version_params (version : Option String) : List (String × String) :=
  match version, truthy version with
  | some v, true => [("version", v)]
  | _, _ => []

/-- Embeds `RemoteResolver.resolve`: GET `{url}/api/v1/resolve` with
`name` and optional `version` parameters.  A transport failure becomes a
`NetworkError` carrying the registry URL; 404 is absence; any other
non-200 status raises `NetworkError` with the status code (not caught by
the `except httpx.HTTPError` clause); on 200 the body is decoded with
`data["name"]` and `data["version"]` (a missing key raises Python's
`KeyError`, which also is not an `httpx.HTTPError`), producing a result
with `source = "remote"`. -/
def remote_resolve (registry_url : String) (client : HttpClient) (name : String)
    (version : Option String) : Except PyErr (Option ResolutionResult) :=
  let p := parse_name_version name
  let version := pyOrOpt version p.2
  match client (registry_url ++ "/api/v1/resolve") (("name", p.1) :: version_params version) with
  | HttpOutcome.transportError msg =>
    Except.error (PyErr.networkError ("Failed to connect to remote registry: " ++ msg)
      none (some registry_url))
  | HttpOutcome.response status body =>
    if status == 404 then Except.ok none
    else if status != 200 then
      Except.error (PyErr.networkError ("Remote registry returned status " ++ toString status)
        (some status) none)
    else
      match body.name with
      | none => Except.error (PyErr.keyError "name")
      | some n =>
        match body.version with
        | none => Except.error (PyErr.keyError "version")
        | some v =>
          Except.ok (some { name := n, version := v, path := body.path.getD "",
                            source := "remote", metadata := body.metadata.getD [] })

/-- The registry configuration fields that drive resolution
(`AgentConfig`: `local_registry_path`, `global_registry_path`,
`remote_registry_url`; the cache fields are forwarded but unused by
resolution and omitted here).  A filesystem tier is `none` when its path
is unset or the directory does not exist. -/
structure AgentConfig where
  local_registry : Option RegistryRoot
  global_registry : Option RegistryRoot
  remote_registry_url : Option String
deriving DecidableEq, Repr

/-- The resolution-relevant fields of `ToolConfig` (identical shape). -/
structure ToolConfig where
  local_registry : Option RegistryRoot
  global_registry : Option RegistryRoot
  remote_registry_url : Option String
deriving DecidableEq, Repr

/-- The remote step of the orchestrators' resolve: guarded by the
truthiness of `config.remote_registry_url`; the `try`/`except` block
swallows every exception (logged only), and an absent result falls
through. -/
def remoteAttempt (url : Option String) (client : HttpClient) (name : String)
    (version : Option String) : Option ResolutionResult :=
  if truthy url then
    match remote_resolve (pyOrStr url defaultRegistryUrl) client name version with
    | Except.ok r => r
    | Except.error _ => none
  else none

/-- Embeds `AgentRegistry.agent_resolve`: local, then global, then
(when a remote URL is configured) remote, returning the first result;
errors from the filesystem tiers propagate; remote errors are swallowed;
exhaustion raises `AgentNotFoundError` with the requested name, the
version, and `searched = ["local", "global", "remote"]`. -/
def agent_resolve (cfg : AgentConfig) (client : HttpClient) (name : String)
    (version : Option String) : Except PyErr ResolutionResult :=
  match local_resolve cfg.local_registry name version with
  | Except.error e => Except.error e
  | Except.ok (some r) => Except.ok r
  | Except.ok none =>
    match global_resolve cfg.global_registry name version with
    | Except.error e => Except.error e
    | Except.ok (some r) => Except.ok r
    | Except.ok none =>
      match remoteAttempt cfg.remote_registry_url client name version with
      | some r => Except.ok r
      | none =>
        Except.error (PyErr.agentNotFound name version ["local", "global", "remote"])

/-- Embeds `ToolRegistry.tool_resolve` (same policy, tool-kind error). -/
def tool_resolve (cfg : ToolConfig) (client : HttpClient) (name : String)
    (version : Option String) : Except PyErr ResolutionResult :=
  match local_resolve cfg.local_registry name version with
  | Except.error e => Except.error e
  | Except.ok (some r) => Except.ok r
  | Except.ok none =>
    match global_resolve cfg.global_registry name version with
    | Except.error e => Except.error e
    | Except.ok (some r) => Except.ok r
    | Except.ok none =>
      match remoteAttempt cfg.remote_registry_url client name version with
      | some r => Except.ok r
      | none =>
        Except.error (PyErr.toolNotFound name version ["local", "global", "remote"])

/-- Embeds `AgentRegistry.agent_exists`: `try: agent_resolve; return True
except AgentNotFoundError: return False` — only the not-found error is
converted to a boolean, every other exception propagates. -/
def agent_exists (cfg : AgentConfig) (client : HttpClient) (name : String)
    (version : Option String) : Except PyErr Bool :=
  match agent_resolve cfg client name version with
  | Except.ok _ => Except.ok true
  | Except.error (PyErr.agentNotFound _ _ _) => Except.ok false
  | Except.error e => Except.error e

/-- Embeds `ToolRegistry.tool_exists` (catches `ToolNotFoundError`). -/
def tool_exists (cfg : ToolConfig) (client : HttpClient) (name : String)
    (version : Option String) : Except PyErr Bool :=
  match tool_resolve cfg client name version with
  | Except.ok _ => Except.ok true
  | Except.error (PyErr.toolNotFound _ _ _) => Except.ok false
  | Except.error e => Except.error e

/-- Recognizer for `NetworkError`. -/
def isNetworkError : PyErr → Bool
  | PyErr.networkError _ _ _ => true
  | _ => false

/-- Recognizer for `ResolutionError`. -/
def isResolutionError : PyErr → Bool
  | PyErr.resolutionError _ _ _ => true
  | _ => false

/-- Recognizer for `AgentNotFoundError`. -/
def isAgentNotFound : PyErr → Bool
  | PyErr.agentNotFound _ _ _ => true
  | _ => false

/-- Recognizer for `ToolNotFoundError`. -/
def isToolNotFound : PyErr → Bool
  | PyErr.toolNotFound _ _ _ => true
  | _ => false

/-! Concrete fixtures: registries, configurations and HTTP clients used
to instantiate the properties proved below. -/

/-- A definition document that parses to a one-entry mapping. -/
def docA : DefDoc := DefDoc.parses (some [("description", "demo")])

/-- Version directories named "10.0.0" and "2.0.0", both with documents. -/
def vdirsLex : List VersionDir :=
  [{ name := "10.0.0", doc := some docA }, { name := "2.0.0", doc := some docA }]

/-- A local registry holding agent "a" at version "1.0.0". -/
def regOne : RegistryRoot :=
  { path := "/r",
    agents := [{ name := "a", versions := [{ name := "1.0.0", doc := some docA }] }],
    tools := [] }

/-- The result of resolving "a" from `regOne`. -/
def resOne : ResolutionResult :=
  { name := "a", version := "1.0.0", path := "/r/agents/a/1.0.0",
    source := "local", metadata := [("description", "demo")] }

/-- A user-global registry holding agent "x" at version "1.0.0". -/
def regHome : RegistryRoot :=
  { path := "/home/user/.forge",
    agents := [{ name := "x", versions := [{ name := "1.0.0", doc := some docA }] }],
    tools := [] }

/-- The untagged result the inherited `list_all` produces from `regHome`. -/
def resHome : ResolutionResult :=
  { name := "x", version := "1.0.0", path := "/home/user/.forge/agents/x/1.0.0",
    source := "local", metadata := [("description", "demo")] }

/-- A registry whose only definition document is malformed. -/
def regBad : RegistryRoot :=
  { path := "/r",
    agents := [{ name := "x",
                 versions := [{ name := "1.0.0", doc := some (DefDoc.malformed "bad yaml") }] }],
    tools := [] }

/-- A registry with the same artifact name under both kind buckets. -/
def regShadow : RegistryRoot :=
  { path := "/r",
    agents := [{ name := "s", versions := [{ name := "1.0.0", doc := some docA }] }],
    tools := [{ name := "s", versions := [{ name := "9.9.9", doc := some docA }] }] }

/-- An HTTP client whose server answers 404 to every request. -/
def client404 : HttpClient :=
  fun _ _ =>
    HttpOutcome.response 404 { name := none, version := none, path := none, metadata := none }

/-- An HTTP client for an unreachable network: every request fails at the
transport level. -/
def clientDown : HttpClient := fun _ _ => HttpOutcome.transportError "connection refused"

/-- An HTTP client answering 200 with a complete body. -/
def clientFull : HttpClient :=
  fun _ _ =>
    HttpOutcome.response 200
      { name := some "a", version := some "1.0.0", path := some "registry://a/1.0.0",
        metadata := none }

/-- An HTTP client answering 200 with a body lacking the "name" key. -/
def clientNoName : HttpClient :=
  fun _ _ =>
    HttpOutcome.response 200 { name := none, version := some "1.0.0", path := none, metadata := none }

/-- Agent configuration: no registries, remote not configured. -/
def cfgEmptyNoRemote : AgentConfig :=
  { local_registry := none, global_registry := none, remote_registry_url := none }

/-- Agent configuration: no registries, remote configured. -/
def cfgEmptyRemote : AgentConfig :=
  { local_registry := none, global_registry := none,
    remote_registry_url := some "https://reg.example" }

/-- Agent configuration: local `regOne`, remote configured. -/
def cfgLocalRemote : AgentConfig :=
  { local_registry := some regOne, global_registry := none,
    remote_registry_url := some "https://reg.example" }

/-- Agent configuration: local registry with a malformed document. -/
def cfgBad : AgentConfig :=
  { local_registry := some regBad, global_registry := none, remote_registry_url := none }

/-- Tool configuration: no registries, remote not configured. -/
def tcfgEmptyNoRemote : ToolConfig :=
  { local_registry := none, global_registry := none, remote_registry_url := none }

/-- Tool configuration: local registry with a malformed document. -/
def tcfgBad : ToolConfig :=
  { local_registry := some regBad, global_registry := none, remote_registry_url := none }

/-! Helper lemmas about the Python string order and the descending sort. -/

theorem pyStrLt_irrefl : ∀ l : List Char, pyStrLt l l = false := by
  intro l
  induction l with
  | nil => rfl
  | cons a as ih => simp [pyStrLt, ih]

theorem pyStrLt_asymm :
    ∀ as bs : List Char, pyStrLt as bs = true → pyStrLt bs as = false := by
  intro as
  induction as with
  | nil =>
    intro bs h
    cases bs with
    | nil => simp [pyStrLt] at h
    | cons b bs' => rfl
  | cons a as' ih =>
    intro bs h
    cases bs with
    | nil => simp [pyStrLt] at h
    | cons b bs' =>
      simp only [pyStrLt] at h ⊢
      rcases Nat.lt_trichotomy a.val.toNat b.val.toNat with hab | hab | hab
      · have hba : ¬b.val.toNat < a.val.toNat := by omega
        rw [if_neg hba, if_pos hab]
      · have h1 : ¬a.val.toNat < b.val.toNat := by omega
        have h2 : ¬b.val.toNat < a.val.toNat := by omega
        rw [if_neg h1, if_neg h2] at h
        rw [if_neg h2, if_neg h1]
        exact ih bs' h
      · have h1 : ¬a.val.toNat < b.val.toNat := by omega
        rw [if_neg h1, if_pos hab] at h
        exact absurd h (by simp)

theorem pyStrLt_le_trans :
    ∀ cs bs as : List Char, pyStrLt bs as = false → pyStrLt cs bs = false →
      pyStrLt cs as = false := by
  intro cs
  induction cs with
  | nil =>
    intro bs as h1 h2
    cases bs with
    | nil =>
      cases as with
      | nil => rfl
      | cons a as' => simp [pyStrLt] at h1
    | cons b bs' => simp [pyStrLt] at h2
  | cons c cs' ih =>
    intro bs as h1 h2
    cases as with
    | nil => rfl
    | cons a as' =>
      cases bs with
      | nil => simp [pyStrLt] at h1
      | cons b bs' =>
        simp only [pyStrLt] at h1 h2 ⊢
        by_cases hba : b.val.toNat < a.val.toNat
        · rw [if_pos hba] at h1
          exact absurd h1 (by simp)
        · by_cases hcb : c.val.toNat < b.val.toNat
          · rw [if_pos hcb] at h2
            exact absurd h2 (by simp)
          · have hca : ¬c.val.toNat < a.val.toNat := by omega
            rw [if_neg hca]
            by_cases hac : a.val.toNat < c.val.toNat
            · rw [if_pos hac]
            · rw [if_neg hac]
              have hab : ¬a.val.toNat < b.val.toNat := by omega
              have hbc : ¬b.val.toNat < c.val.toNat := by omega
              rw [if_neg hba, if_neg hab] at h1
              rw [if_neg hcb, if_neg hbc] at h2
              exact ih bs' as' h1 h2

theorem pyLe_refl (a : String) : pyLe a a = true := by
  simp [pyLe, pyStrLt_irrefl]

theorem pyLe_total (a b : String) : pyLe a b = true ∨ pyLe b a = true := by
  by_cases h : pyStrLt b.data a.data = true
  · right
    simp [pyLe, pyStrLt_asymm _ _ h]
  · left
    simp [pyLe] at h ⊢
    exact h

theorem pyLe_trans {a b c : String} (h1 : pyLe a b = true) (h2 : pyLe b c = true) :
    pyLe a c = true := by
  simp only [pyLe, Bool.not_eq_true'] at h1 h2 ⊢
  exact pyStrLt_le_trans c.data b.data a.data h1 h2

theorem mem_insertDesc {x v : String} :
    ∀ l : List String, x ∈ insertDesc v l ↔ x = v ∨ x ∈ l := by
  intro l
  induction l with
  | nil => simp [insertDesc]
  | cons w ws ih =>
    by_cases h : pyLe w v = true
    · simp [insertDesc, h]
    · simp only [insertDesc, if_neg h, List.mem_cons, ih]
      tauto

theorem mem_sortDesc {x : String} :
    ∀ l : List String, x ∈ sortDesc l ↔ x ∈ l := by
  intro l
  induction l with
  | nil => simp [sortDesc]
  | cons v vs ih => simp [sortDesc, mem_insertDesc, ih]

/-- The head of the descending sort is a maximum of the input list. -/
theorem sortDesc_head_max :
    ∀ (vs : List String) (v : String) (rest : List String),
      sortDesc vs = v :: rest → ∀ x ∈ vs, pyLe x v = true := by
  intro vs
  induction vs with
  | nil => intro v rest h; cases h
  | cons a vs' ih =>
    intro v rest h x hx
    simp only [sortDesc] at h
    rcases hs : sortDesc vs' with _ | ⟨w, ws⟩
    · rw [hs] at h
      simp only [insertDesc, List.cons.injEq] at h
      rcases List.mem_cons.mp hx with hxa | hxv
      · rw [hxa, ← h.1]; exact pyLe_refl a
      · exfalso
        have : x ∈ sortDesc vs' := (mem_sortDesc vs').mpr hxv
        rw [hs] at this
        cases this
    · rw [hs] at h
      by_cases hwa : pyLe w a = true
      · rw [insertDesc, if_pos hwa] at h
        have hv : v = a := (List.cons.injEq _ _ _ _ ▸ h).1.symm
        rcases List.mem_cons.mp hx with hxa | hxv
        · rw [hxa, hv]; exact pyLe_refl a
        · have hxw : pyLe x w = true := ih w ws hs x hxv
          rw [hv]
          exact pyLe_trans hxw hwa
      · rw [insertDesc, if_neg hwa] at h
        have hv : v = w := (List.cons.injEq _ _ _ _ ▸ h).1.symm
        rcases List.mem_cons.mp hx with hxa | hxv
        · rw [hxa, hv]
          rcases pyLe_total a w with haw | hwa'
          · exact haw
          · exact absurd hwa' hwa
        · rw [hv]
          exact ih w ws hs x hxv

theorem splitFirstAt_of_not_mem {sep : Char} :
    ∀ l : List Char, sep ∉ l → splitFirstAt sep l = none := by
  intro l
  induction l with
  | nil => intro h; rfl
  | cons c rest ih =>
    intro h
    have hc : ¬c = sep := fun hcs => h (hcs ▸ List.mem_cons_self c rest)
    have hrest : sep ∉ rest := fun hm => h (List.mem_cons_of_mem c hm)
    simp [splitFirstAt, hc, ih hrest]

theorem splitFirstAt_append {sep : Char} :
    ∀ a b : List Char, sep ∉ a → splitFirstAt sep (a ++ sep :: b) = some (a, b) := by
  intro a
  induction a with
  | nil => intro b h; simp [splitFirstAt]
  | cons c rest ih =>
    intro b h
    have hc : ¬c = sep := fun hcs => h (hcs ▸ List.mem_cons_self c rest)
    have hrest : sep ∉ rest := fun hm => h (List.mem_cons_of_mem c hm)
    simp [splitFirstAt, hc, ih b hrest]

/-- C9: an identifier token without `@` parses to the token itself with
an absent version; a token containing `@` is split at the first `@`
only, so the version may itself contain `@` (for example `a@b@c` yields
name `a` and version `b@c`). -/
theorem parse_identifier_splits_on_first_at :
    (∀ name : String, '@' ∉ name.data → parse_name_version name = (name, none)) ∧
    (∀ a b : List Char, '@' ∉ a →
      parse_name_version (String.mk (a ++ '@' :: b)) = (String.mk a, some (String.mk b))) ∧
    parse_name_version "a@b@c" = ("a", some "b@c") := by
  refine ⟨?_, ?_, by decide⟩
  · intro name h
    simp [parse_name_version, splitFirstAt_of_not_mem name.data h]
  · intro a b h
    have hdata : (String.mk (a ++ '@' :: b)).data = a ++ '@' :: b := rfl
    simp [parse_name_version, hdata, splitFirstAt_append a b h]

/-- Witness for C9 at the concrete tokens "plain-name" and "a@b@c". -/
theorem parse_identifier_splits_on_first_at_witness :
    parse_name_version "plain-name" = ("plain-name", none) ∧
    parse_name_version "a@b@c" = ("a", some "b@c") :=
  ⟨parse_identifier_splits_on_first_at.1 "plain-name" (by decide),
   parse_identifier_splits_on_first_at.2.2⟩

/-- C2: with no requested version, `_find_version` picks the first
element of the descending lexical sort of the version directory names,
which is a lexical maximum of all of them; when that directory's
definition document parses, the returned result carries exactly that
version (so "2.0.0" wins over "10.0.0", lexical, not semantic). -/
theorem find_version_latest_lexical (base name latest : String) (vdirs : List VersionDir)
    (rest : List String) (vd : VersionDir) (d : Option (List (String × String)))
    (hsort : sortDesc (vdirs.map (fun v => v.name)) = latest :: rest)
    (hfind : lookupVersion vdirs latest = some vd)
    (hdoc : vd.doc = some (DefDoc.parses d)) :
    find_version base vdirs name none =
      Except.ok (some { name := name, version := latest, path := base ++ "/" ++ latest,
                        source := "local", metadata := d.getD [] }) ∧
    ∀ v ∈ vdirs.map (fun x => x.name), pyLe v latest = true := by
  constructor
  · have hne : (vdirs.map (fun v => v.name)).isEmpty = false := by
      cases h' : vdirs.map (fun v => v.name) with
      | nil => rw [h'] at hsort; simp [sortDesc] at hsort
      | cons y ys => simp
    simp [find_version, hne, hsort, hfind, hdoc, create_result, truthy, Except.map]
  · exact sortDesc_head_max (vdirs.map (fun v => v.name)) latest rest hsort

/-- Witness for C2 on directories "10.0.0" and "2.0.0": the resolver
picks "2.0.0", the lexical maximum, not the semantically-latest. -/
theorem find_version_latest_lexical_witness :
    find_version "/r/agents/x" vdirsLex "x" none =
      Except.ok (some { name := "x", version := "2.0.0", path := "/r/agents/x/2.0.0",
                        source := "local", metadata := [("description", "demo")] }) ∧
    pyLe "10.0.0" "2.0.0" = true ∧ "2.0.0" ≠ "10.0.0" :=
  ⟨(find_version_latest_lexical "/r/agents/x" "x" "2.0.0" vdirsLex ["10.0.0"]
      { name := "2.0.0", doc := some docA } (some [("description", "demo")])
      (by decide) (by decide) rfl).1,
   by decide, by decide⟩

/-- C10: `LocalResolver.resolve` consults the "agents" kind bucket
before the "tools" bucket: a result found under "agents" is returned and
shadows any "tools" entry of the same name; the "tools" bucket is
reached only when the "agents" bucket is absent or yields no result. -/
theorem agents_bucket_shadows_tools (root : RegistryRoot) (name : String)
    (version : Option String) :
    (∀ d r, lookupName root.agents (parse_name_version name).1 = some d →
      find_version (root.path ++ "/" ++ "agents" ++ "/" ++ (parse_name_version name).1) d.versions
          (parse_name_version name).1 (pyOrOpt version (parse_name_version name).2) =
        Except.ok (some r) →
      local_resolve (some root) name version = Except.ok (some r)) ∧
    (lookupName root.agents (parse_name_version name).1 = none →
      local_resolve (some root) name version =
        resolve_buckets root.path [("tools", root.tools)] (parse_name_version name).1
          (pyOrOpt version (parse_name_version name).2)) ∧
    (∀ d, lookupName root.agents (parse_name_version name).1 = some d →
      find_version (root.path ++ "/" ++ "agents" ++ "/" ++ (parse_name_version name).1) d.versions
          (parse_name_version name).1 (pyOrOpt version (parse_name_version name).2) =
        Except.ok none →
      local_resolve (some root) name version =
        resolve_buckets root.path [("tools", root.tools)] (parse_name_version name).1
          (pyOrOpt version (parse_name_version name).2)) := by
  refine ⟨?_, ?_, ?_⟩
  · intro d r hd hf
    simp [local_resolve, resolve_buckets, hd, hf]
  · intro hd
    simp [local_resolve, resolve_buckets, hd]
  · intro d hd hf
    simp [local_resolve, resolve_buckets, hd, hf]

/-- Witness for C10 on `regShadow`, whose name "s" exists under both
buckets: resolution returns the agents-bucket entry (version "1.0.0"),
not the tools-bucket entry (version "9.9.9"). -/
theorem agents_bucket_shadows_tools_witness :
    local_resolve (some regShadow) "s" none =
      Except.ok (some { name := "s", version := "1.0.0", path := "/r/agents/s/1.0.0",
                        source := "local", metadata := [("description", "demo")] }) :=
  (agents_bucket_shadows_tools regShadow "s" none).1
    { name := "s", versions := [{ name := "1.0.0", doc := some docA }] }
    { name := "s", version := "1.0.0", path := "/r/agents/s/1.0.0",
      source := "local", metadata := [("description", "demo")] }
    (by decide) rfl

/-- C1: `agent_resolve` / `tool_resolve` consult local, then global,
then (only when a remote URL is configured) remote, returning the first
result unchanged; when no tier produces a result they fail with
`AgentNotFoundError` / `ToolNotFoundError`. -/
theorem resolve_tier_order (acfg : AgentConfig) (tcfg : ToolConfig) (client : HttpClient)
    (name : String) (version : Option String) :
    (∀ r, local_resolve acfg.local_registry name version = Except.ok (some r) →
      agent_resolve acfg client name version = Except.ok r) ∧
    (local_resolve acfg.local_registry name version = Except.ok none →
      ∀ r, global_resolve acfg.global_registry name version = Except.ok (some r) →
      agent_resolve acfg client name version = Except.ok r) ∧
    (local_resolve acfg.local_registry name version = Except.ok none →
      global_resolve acfg.global_registry name version = Except.ok none →
      truthy acfg.remote_registry_url = true →
      ∀ r, remote_resolve (pyOrStr acfg.remote_registry_url defaultRegistryUrl) client
          name version = Except.ok (some r) →
      agent_resolve acfg client name version = Except.ok r) ∧
    (local_resolve acfg.local_registry name version = Except.ok none →
      global_resolve acfg.global_registry name version = Except.ok none →
      truthy acfg.remote_registry_url = false →
      agent_resolve acfg client name version =
        Except.error (PyErr.agentNotFound name version ["local", "global", "remote"])) ∧
    (local_resolve acfg.local_registry name version = Except.ok none →
      global_resolve acfg.global_registry name version = Except.ok none →
      remote_resolve (pyOrStr acfg.remote_registry_url defaultRegistryUrl) client
          name version = Except.ok none →
      agent_resolve acfg client name version =
        Except.error (PyErr.agentNotFound name version ["local", "global", "remote"])) ∧
    (∀ r, local_resolve tcfg.local_registry name version = Except.ok (some r) →
      tool_resolve tcfg client name version = Except.ok r) ∧
    (local_resolve tcfg.local_registry name version = Except.ok none →
      ∀ r, global_resolve tcfg.global_registry name version = Except.ok (some r) →
      tool_resolve tcfg client name version = Except.ok r) ∧
    (local_resolve tcfg.local_registry name version = Except.ok none →
      global_resolve tcfg.global_registry name version = Except.ok none →
      truthy tcfg.remote_registry_url = true →
      ∀ r, remote_resolve (pyOrStr tcfg.remote_registry_url defaultRegistryUrl) client
          name version = Except.ok (some r) →
      tool_resolve tcfg client name version = Except.ok r) ∧
    (local_resolve tcfg.local_registry name version = Except.ok none →
      global_resolve tcfg.global_registry name version = Except.ok none →
      truthy tcfg.remote_registry_url = false →
      tool_resolve tcfg client name version =
        Except.error (PyErr.toolNotFound name version ["local", "global", "remote"])) ∧
    (local_resolve tcfg.local_registry name version = Except.ok none →
      global_resolve tcfg.global_registry name version = Except.ok none →
      remote_resolve (pyOrStr tcfg.remote_registry_url defaultRegistryUrl) client
          name version = Except.ok none →
      tool_resolve tcfg client name version =
        Except.error (PyErr.toolNotFound name version ["local", "global", "remote"])) := by
  refine ⟨?_, ?_, ?_, ?_, ?_, ?_, ?_, ?_, ?_, ?_⟩
  · intro r hl
    simp [agent_resolve, hl]
  · intro hl r hg
    simp [agent_resolve, hl, hg]
  · intro hl hg ht r hr
    simp [agent_resolve, remoteAttempt, hl, hg, ht, hr]
  · intro hl hg ht
    simp [agent_resolve, remoteAttempt, hl, hg, ht]
  · intro hl hg hr
    cases ht : truthy acfg.remote_registry_url <;>
      simp [agent_resolve, remoteAttempt, hl, hg, ht, hr]
  · intro r hl
    simp [tool_resolve, hl]
  · intro hl r hg
    simp [tool_resolve, hl, hg]
  · intro hl hg ht r hr
    simp [tool_resolve, remoteAttempt, hl, hg, ht, hr]
  · intro hl hg ht
    simp [tool_resolve, remoteAttempt, hl, hg, ht]
  · intro hl hg hr
    cases ht : truthy tcfg.remote_registry_url <;>
      simp [tool_resolve, remoteAttempt, hl, hg, ht, hr]

/-- Witness for C1: a local match in `regOne` is returned as-is even
with remote configured, and a fully-empty configuration fails with the
kind-specific not-found error. -/
theorem resolve_tier_order_witness :
    agent_resolve cfgLocalRemote client404 "a" none = Except.ok resOne ∧
    agent_resolve cfgEmptyNoRemote client404 "missing" none =
      Except.error (PyErr.agentNotFound "missing" none ["local", "global", "remote"]) ∧
    tool_resolve tcfgEmptyNoRemote client404 "missing" none =
      Except.error (PyErr.toolNotFound "missing" none ["local", "global", "remote"]) :=
  ⟨(resolve_tier_order cfgLocalRemote tcfgEmptyNoRemote client404 "a" none).1 resOne rfl,
   (resolve_tier_order cfgEmptyNoRemote tcfgEmptyNoRemote client404 "missing" none).2.2.2.1 rfl rfl rfl,
   ((resolve_tier_order cfgEmptyNoRemote tcfgEmptyNoRemote client404 "missing" none).2.2.2.2.2.2.2.2.1) rfl rfl rfl⟩

/-- C4: a definition document that exists but fails to parse makes
`_create_result` raise `ResolutionError` carrying the artifact name and
the document path, and that error propagates out of the orchestrators'
resolve unchanged — never converted into absence or a not-found error,
and no further tier is consulted (the result is fixed by the local tier
alone, for every client and global registry). -/
theorem resolution_error_propagates (acfg : AgentConfig) (tcfg : ToolConfig)
    (client : HttpClient) (name : String) (version : Option String) :
    (∀ aname ver dir msg, create_result aname ver dir (DefDoc.malformed msg) =
      Except.error (PyErr.resolutionError ("Failed to load definition: " ++ msg) aname
        (dir ++ "/definition.yaml"))) ∧
    (∀ m n p, local_resolve acfg.local_registry name version =
        Except.error (PyErr.resolutionError m n p) →
      agent_resolve acfg client name version =
        Except.error (PyErr.resolutionError m n p)) ∧
    (∀ m n p, local_resolve tcfg.local_registry name version =
        Except.error (PyErr.resolutionError m n p) →
      tool_resolve tcfg client name version =
        Except.error (PyErr.resolutionError m n p)) := by
  refine ⟨?_, ?_, ?_⟩
  · intro aname ver dir msg
    rfl
  · intro m n p hl
    simp [agent_resolve, hl]
  · intro m n p hl
    simp [tool_resolve, hl]

/-- Witness for C4 on `regBad`, whose only document is malformed: the
orchestrator surfaces `ResolutionError` with the name and path. -/
theorem resolution_error_propagates_witness :
    agent_resolve cfgBad client404 "x" none =
      Except.error (PyErr.resolutionError "Failed to load definition: bad yaml" "x"
        "/r/agents/x/1.0.0/definition.yaml") ∧
    tool_exists tcfgBad client404 "x" none =
      Except.error (PyErr.resolutionError "Failed to load definition: bad yaml" "x"
        "/r/agents/x/1.0.0/definition.yaml") :=
  ⟨(resolution_error_propagates cfgBad tcfgBad client404 "x" none).2.1
      "Failed to load definition: bad yaml" "x" "/r/agents/x/1.0.0/definition.yaml" rfl,
   rfl⟩

/-- C5 as stated is false; counterexample: with the remote tier not
configured (`remote_registry_url = none`), a failing resolve still
attaches `searched = ["local", "global", "remote"]`, although only the
local and global tiers were consulted. -/
theorem notfound_searched_list_counterexample :
    agent_resolve cfgEmptyNoRemote client404 "missing" none =
      Except.error (PyErr.agentNotFound "missing" none ["local", "global", "remote"]) ∧
    truthy cfgEmptyNoRemote.remote_registry_url = false ∧
    (["local", "global", "remote"] : List String) ≠ ["local", "global"] :=
  ⟨rfl, rfl, by decide⟩

/-- C5 amended: the not-found error carries the requested name, the
requested version, and always the fixed literal list
`["local", "global", "remote"]`, regardless of whether the remote tier
was configured or consulted. -/
theorem notfound_searched_list_fixed (acfg : AgentConfig) (tcfg : ToolConfig)
    (client : HttpClient) (name : String) (version : Option String) :
    (local_resolve acfg.local_registry name version = Except.ok none →
      global_resolve acfg.global_registry name version = Except.ok none →
      remoteAttempt acfg.remote_registry_url client name version = none →
      agent_resolve acfg client name version =
        Except.error (PyErr.agentNotFound name version ["local", "global", "remote"])) ∧
    (local_resolve tcfg.local_registry name version = Except.ok none →
      global_resolve tcfg.global_registry name version = Except.ok none →
      remoteAttempt tcfg.remote_registry_url client name version = none →
      tool_resolve tcfg client name version =
        Except.error (PyErr.toolNotFound name version ["local", "global", "remote"])) := by
  constructor
  · intro hl hg hr
    simp [agent_resolve, hl, hg, hr]
  · intro hl hg hr
    simp [tool_resolve, hl, hg, hr]

/-- Witness for the amended C5: the same fixed searched list appears
with remote unconfigured and with remote configured but empty. -/
theorem notfound_searched_list_fixed_witness :
    agent_resolve cfgEmptyNoRemote clientDown "nope" (some "1.2.3") =
      Except.error (PyErr.agentNotFound "nope" (some "1.2.3")
        ["local", "global", "remote"]) ∧
    agent_resolve cfgEmptyRemote client404 "nope" none =
      Except.error (PyErr.agentNotFound "nope" none ["local", "global", "remote"]) :=
  ⟨(notfound_searched_list_fixed cfgEmptyNoRemote tcfgEmptyNoRemote clientDown "nope"
      (some "1.2.3")).1 rfl rfl rfl,
   (notfound_searched_list_fixed cfgEmptyRemote tcfgEmptyNoRemote client404 "nope"
      none).1 rfl rfl rfl⟩

/-- C6: every error of the remote tier is swallowed by the
orchestrator's resolve: a local match is returned for every client
behaviour (a network failure never surfaces), and when no tier has the
artifact a remote error still ends in the not-found error. -/
theorem remote_errors_swallowed (acfg : AgentConfig) (client : HttpClient)
    (name : String) (version : Option String) :
    (∀ r, local_resolve acfg.local_registry name version = Except.ok (some r) →
      agent_resolve acfg client name version = Except.ok r) ∧
    (∀ e, local_resolve acfg.local_registry name version = Except.ok none →
      global_resolve acfg.global_registry name version = Except.ok none →
      remote_resolve (pyOrStr acfg.remote_registry_url defaultRegistryUrl) client
          name version = Except.error e →
      agent_resolve acfg client name version =
        Except.error (PyErr.agentNotFound name version ["local", "global", "remote"])) := by
  constructor
  · intro r hl
    simp [agent_resolve, hl]
  · intro e hl hg hr
    cases ht : truthy acfg.remote_registry_url <;>
      simp [agent_resolve, remoteAttempt, hl, hg, ht, hr]

/-- Witness for C6 with an unreachable network (`clientDown`): a local
match is returned, and an empty configuration with remote configured
still fails with not-found rather than a network error. -/
theorem remote_errors_swallowed_witness :
    agent_resolve cfgLocalRemote clientDown "a" none = Except.ok resOne ∧
    agent_resolve cfgEmptyRemote clientDown "missing" none =
      Except.error (PyErr.agentNotFound "missing" none ["local", "global", "remote"]) :=
  ⟨(remote_errors_swallowed cfgLocalRemote clientDown "a" none).1 resOne rfl,
   (remote_errors_swallowed cfgEmptyRemote clientDown "missing" none).2
      (PyErr.networkError "Failed to connect to remote registry: connection refused"
        none (some "https://reg.example")) rfl rfl rfl⟩

/-- C7 as stated is false; counterexample: on an HTTP 200 response whose
body lacks the "name" key, `RemoteResolver.resolve` escapes with
Python's builtin `KeyError` (from `data["name"]`), which the
`except httpx.HTTPError` clause does not catch — it is neither a
`NetworkError` nor a `ResolutionError`. -/
theorem remote_missing_field_counterexample :
    remote_resolve "https://reg.example" clientNoName "a" none =
      Except.error (PyErr.keyError "name") ∧
    isNetworkError (PyErr.keyError "name") = false ∧
    isResolutionError (PyErr.keyError "name") = false :=
  ⟨rfl, rfl, rfl⟩

/-- C7 amended: on an HTTP 200 response whose body lacks `name` (or has
`name` but lacks `version`), `RemoteResolver.resolve` escapes with a
`KeyError` naming the missing field — not a `NetworkError` or
`ResolutionError`; when both fields are present the decoded result
carries `source = "remote"`. -/
theorem remote_decode_missing_fields (url : String) (client : HttpClient)
    (name : String) (version : Option String) (body : RemoteBody)
    (hresp : client (url ++ "/api/v1/resolve")
        (("name", (parse_name_version name).1) ::
          version_params (pyOrOpt version (parse_name_version name).2)) =
      HttpOutcome.response 200 body) :
    (body.name = none →
      remote_resolve url client name version = Except.error (PyErr.keyError "name")) ∧
    (∀ n, body.name = some n → body.version = none →
      remote_resolve url client name version = Except.error (PyErr.keyError "version")) ∧
    (∀ n v, body.name = some n → body.version = some v →
      remote_resolve url client name version =
        Except.ok (some { name := n, version := v, path := body.path.getD "",
                          source := "remote", metadata := body.metadata.getD [] })) := by
  refine ⟨?_, ?_, ?_⟩
  · intro hn
    simp [remote_resolve, hresp, hn]
  · intro n hn hv
    simp [remote_resolve, hresp, hn, hv]
  · intro n v hn hv
    simp [remote_resolve, hresp, hn, hv]

/-- Witness for the amended C7: a complete 200 body decodes to a result
tagged "remote". -/
theorem remote_decode_missing_fields_witness :
    remote_resolve "https://reg.example" clientFull "a" none =
      Except.ok (some { name := "a", version := "1.0.0", path := "registry://a/1.0.0",
                        source := "remote", metadata := [] }) :=
  (remote_decode_missing_fields "https://reg.example" clientFull "a" none
      { name := some "a", version := some "1.0.0", path := some "registry://a/1.0.0",
        metadata := none } rfl).2.2 "a" "1.0.0" rfl rfl

/-- C8: `agent_exists` / `tool_exists` return true iff the matching
resolve succeeds; the kind's not-found error becomes `false`; every
other error kind propagates unchanged. -/
theorem exists_mirrors_resolve (acfg : AgentConfig) (tcfg : ToolConfig)
    (client : HttpClient) (name : String) (version : Option String) :
    (∀ r, agent_resolve acfg client name version = Except.ok r →
      agent_exists acfg client name version = Except.ok true) ∧
    (∀ n v s, agent_resolve acfg client name version =
        Except.error (PyErr.agentNotFound n v s) →
      agent_exists acfg client name version = Except.ok false) ∧
    (∀ e, agent_resolve acfg client name version = Except.error e →
      isAgentNotFound e = false →
      agent_exists acfg client name version = Except.error e) ∧
    (∀ r, tool_resolve tcfg client name version = Except.ok r →
      tool_exists tcfg client name version = Except.ok true) ∧
    (∀ n v s, tool_resolve tcfg client name version =
        Except.error (PyErr.toolNotFound n v s) →
      tool_exists tcfg client name version = Except.ok false) ∧
    (∀ e, tool_resolve tcfg client name version = Except.error e →
      isToolNotFound e = false →
      tool_exists tcfg client name version = Except.error e) := by
  refine ⟨?_, ?_, ?_, ?_, ?_, ?_⟩
  · intro r h
    simp [agent_exists, h]
  · intro n v s h
    simp [agent_exists, h]
  · intro e h hne
    cases e <;> simp_all [agent_exists, isAgentNotFound]
  · intro r h
    simp [tool_exists, h]
  · intro n v s h
    simp [tool_exists, h]
  · intro e h hne
    cases e <;> simp_all [tool_exists, isToolNotFound]

/-- Witness for C8: a present agent gives true, an absent one gives
false, and a corrupt local record propagates as a `ResolutionError`. -/
theorem exists_mirrors_resolve_witness :
    agent_exists cfgLocalRemote client404 "a" none = Except.ok true ∧
    agent_exists cfgEmptyNoRemote client404 "missing" none = Except.ok false ∧
    agent_exists cfgBad client404 "x" none =
      Except.error (PyErr.resolutionError "Failed to load definition: bad yaml" "x"
        "/r/agents/x/1.0.0/definition.yaml") :=
  ⟨(exists_mirrors_resolve cfgLocalRemote tcfgEmptyNoRemote client404 "a" none).1
      resOne rfl,
   (exists_mirrors_resolve cfgEmptyNoRemote tcfgEmptyNoRemote client404 "missing" none).2.1
      "missing" none ["local", "global", "remote"] rfl,
   (exists_mirrors_resolve cfgBad tcfgEmptyNoRemote client404 "x" none).2.2.1
      (PyErr.resolutionError "Failed to load definition: bad yaml" "x"
        "/r/agents/x/1.0.0/definition.yaml") rfl rfl⟩

/-- C3 fails on the code: `GlobalResolver` re-tags only `resolve`; it
inherits `list_all` from `LocalResolver` without overriding it, so every
result of the global resolver's `list_all` still carries
`source = "local"` (the value hardcoded in `_create_result`), not
`"global"`, while `resolve` on the same registry does re-tag.  Evaluated
here at the concrete registry `regHome`. -/
theorem global_list_all_source_not_retagged :
    global_list_all (some regHome) = Except.ok [resHome] ∧
    resHome.source = "local" ∧
    global_resolve (some regHome) "x" none =
      Except.ok (some { resHome with source := "global" }) ∧
    ("local" : String) ≠ "global" :=
  ⟨rfl, rfl, rfl, by decide⟩

end Forge
